import Mathlib

/-!
Shallow embedding of the client-side state machine of `src/frontend/src/App.tsx`
(the HayAI-Et art web client): the optimistic mutation coordinator
(`handleToggleLike`, `handleToggleVisibility`, `handleAddComment`,
`clearGallery`), the debounced search controller (the `useEffect` over
`searchQuery`/`activePage`), and the profile-navigation handlers
(`handleBackToMyProfile` and the `viewingProfile` follow-stats effect).

TypeScript numbers are modelled as `Int` (they may go negative, e.g.
`likeCount - 1`), strings as `String`, `x?: T | null` fields as `Option`.
User-facing message texts are modelled structurally: one constructor per
distinct template string in the source, carrying the interpolated values.
Network effects are made explicit: a handler's "start" step returns the new
state together with the request it issues (if any) and the closure data it
captures (e.g. the rollback snapshot); completion steps take that data and
the response.
-/

set_option maxHeartbeats 1000000

namespace HayAI

/-- Visibility flag of a gallery item (`'public' | 'private'` in the source). -/
inductive Visibility
| publicV
| privateV
deriving DecidableEq

/-- Comment record (interface `Comment` in App.tsx). -/
structure Comment where
  id : String
  user_id : Int
  username : String
  displayName : String
  avatar_name : Option String
  comment_text : String
  timestamp : Int
deriving DecidableEq

/-- Gallery item (interface `GalleryItem` in App.tsx). -/
structure GalleryItem where
  id : String
  original : String
  improved : String
  filename : String
  originalFilename : String
  timestamp : Int
  title : Option String
  emoji : Option String
  likeCount : Int
  isLiked : Bool
  mode : Option String
  commentCount : Int
  comments : List Comment
  visibility : Visibility
deriving DecidableEq

/-- Message type of the transient status banner (`success | error | info`). -/
inductive MsgType
| success
| error
| info
deriving DecidableEq

/-- User-facing message text, one constructor per template string in the
source, carrying the values interpolated into it. -/
inductive MsgText
| mustSignInToLike
| likeFailed
| visibilityChanged (newVis : Visibility)
| visibilityFailed (detail : String)
| mustSignInToComment
| postInfoMissing
| commentAdded
| commentFailed (detail : String)
| clearedAll (deleted total : Int)
| clearFailedGeneric (detail : String)
deriving DecidableEq

/-- A transient status message (the `message` state in App.tsx). -/
structure Msg where
  type : MsgType
  text : MsgText
deriving DecidableEq

/-- The slice of top-level application state touched by the gallery
mutation handlers: the gallery collection and the status message. -/
structure AppState where
  gallery : List GalleryItem
  message : Option Msg
deriving DecidableEq

/-- JS falsiness of the value returned by `getCurrentUserId()`: the guards
`if (!currentUserId)` treat both `null` (no session) and `0` as absent. -/
def falsyId (uid : Option Int) : Bool :=
  match uid with
  | none => true
  | some u => u == 0

/-- HTTP method selected by `handleToggleLike` (POST to like, DELETE to
unlike, chosen by the pre-mutation `isLiked`). -/
inductive LikeMethod
| post
| delete
deriving DecidableEq

/-- A backend request issued by `handleToggleLike`:
`api.post/delete(API_URL + "/api/posts/" + item.originalFilename + "/like")`. -/
structure LikeRequest where
  method : LikeMethod
  ref : String
deriving DecidableEq

/-- A backend request issued by `handleToggleVisibility`:
`api.patch(API_URL + "/api/posts/" + item.originalFilename + "/visibility",
\x7b visibility: newVisibility \x7d)`. -/
structure VisibilityRequest where
  ref : String
  visibility : Visibility
deriving DecidableEq

/-- The optimistic update of `handleToggleLike` (App.tsx lines 723-732):
`setGallery(prev => prev.map(gItem => gItem.id === item.id ? \x7b ...gItem,
isLiked: !gItem.isLiked, likeCount: gItem.isLiked ? gItem.likeCount - 1 :
gItem.likeCount + 1 \x7d : gItem))`. -/
def applyLikeToggle (g : List GalleryItem) (targetId : String) : List GalleryItem :=
  g.map fun gItem =>
    if gItem.id = targetId then
      { gItem with
        isLiked := !gItem.isLiked
        likeCount := if gItem.isLiked then gItem.likeCount - 1 else gItem.likeCount + 1 }
    else gItem

/-- The optimistic update of `handleToggleVisibility` (App.tsx lines 762-767):
`setGallery(prev => prev.map(gItem => gItem.id === item.id ? \x7b ...gItem,
visibility: newVisibility \x7d : gItem))`; `newVisibility` was computed from
the clicked item before the map. -/
def applyVisibilityToggle (g : List GalleryItem) (targetId : String)
    (newVisibility : Visibility) : List GalleryItem :=
  g.map fun gItem =>
    if gItem.id = targetId then { gItem with visibility := newVisibility } else gItem

/-- Synchronous part of `handleToggleLike` (App.tsx lines 712-742), up to the
suspension point at the `await`: the sign-in guard, the snapshot
`oldGallery = [...gallery]`, the optimistic update, and the request issued.
Returns the new state, the request (none when the guard fails) and the
snapshot closed over for rollback (none when the guard fails). -/
def handleToggleLikeStart (s : AppState) (item : GalleryItem) (uid : Option Int) :
    AppState × Option LikeRequest × Option (List GalleryItem) :=
  if falsyId uid then
    ({ s with message := some ⟨MsgType.error, MsgText.mustSignInToLike⟩ }, none, none)
  else
    let oldGallery := s.gallery
    ({ s with gallery := applyLikeToggle s.gallery item.id },
     some ⟨if item.isLiked then LikeMethod.delete else LikeMethod.post, item.originalFilename⟩,
     some oldGallery)

/-- Success continuation of `handleToggleLike`: the `try` block does nothing
after the `await`, so the optimistic value stands. -/
def handleToggleLikeOk (s : AppState) : AppState := s

/-- Failure continuation of `handleToggleLike` (the `catch`, lines 744-749):
`setGallery(oldGallery)` and a generic error message. -/
def handleToggleLikeFail (s : AppState) (oldGallery : List GalleryItem) : AppState :=
  { s with gallery := oldGallery, message := some ⟨MsgType.error, MsgText.likeFailed⟩ }

/-- Synchronous part of `handleToggleVisibility` (App.tsx lines 754-772), up to
the `await`: the (silent) sign-in guard, `newVisibility` computed from the
clicked item, the snapshot, the optimistic update and the PATCH request. -/
def handleToggleVisibilityStart (s : AppState) (item : GalleryItem) (uid : Option Int) :
    AppState × Option VisibilityRequest × Option (List GalleryItem) :=
  if falsyId uid then (s, none, none)
  else
    let newVisibility :=
      if item.visibility = Visibility.publicV then Visibility.privateV else Visibility.publicV
    let oldGallery := s.gallery
    ({ s with gallery := applyVisibilityToggle s.gallery item.id newVisibility },
     some ⟨item.originalFilename, newVisibility⟩,
     some oldGallery)

/-- Success continuation of `handleToggleVisibility` (lines 774-777): only a
success message; the optimistic value stands. -/
def handleToggleVisibilityOk (s : AppState) (newVisibility : Visibility) : AppState :=
  { s with message := some ⟨MsgType.success, MsgText.visibilityChanged newVisibility⟩ }

/-- Failure continuation of `handleToggleVisibility` (the `catch`, lines
778-785): `setGallery(oldGallery)` and an error message with the detail. -/
def handleToggleVisibilityFail (s : AppState) (oldGallery : List GalleryItem)
    (detail : String) : AppState :=
  { s with gallery := oldGallery,
           message := some ⟨MsgType.error, MsgText.visibilityFailed detail⟩ }

/-- A backend request issued by `handleAddComment`:
`api.post(API_URL + "/api/posts/" + commentingItem.originalFilename +
"/comment", \x7b presetId \x7d)`. -/
structure CommentRequest where
  ref : String
  presetId : Int
deriving DecidableEq

/-- Synchronous part of `handleAddComment` (App.tsx lines 1056-1079), up to the
`await`: the sign-in/`commentingItem` guard (`!currentUserId ||
!commentingItem`), the `originalFilename` guard (empty string is falsy), and
the POST request. The gallery is untouched here: nothing is inserted before
the backend confirms. -/
def handleAddCommentStart (s : AppState) (commentingItem : Option GalleryItem)
    (uid : Option Int) (presetId : Int) : AppState × Option CommentRequest :=
  match commentingItem with
  | none => ({ s with message := some ⟨MsgType.error, MsgText.mustSignInToComment⟩ }, none)
  | some item =>
    if falsyId uid then
      ({ s with message := some ⟨MsgType.error, MsgText.mustSignInToComment⟩ }, none)
    else if item.originalFilename = "" then
      ({ s with message := some ⟨MsgType.error, MsgText.postInfoMissing⟩ }, none)
    else (s, some ⟨item.originalFilename, presetId⟩)

/-- Success continuation of `handleAddComment` (lines 1083-1099): append the
server-returned canonical comment record `response.data` to the matching
item and bump its `commentCount`, then show a success message. -/
def handleAddCommentOk (s : AppState) (commentingItemId : String)
    (serverComment : Comment) : AppState :=
  { gallery := s.gallery.map fun item =>
      if item.id = commentingItemId then
        { item with
          commentCount := item.commentCount + 1
          comments := item.comments ++ [serverComment] }
      else item,
    message := some ⟨MsgType.success, MsgText.commentAdded⟩ }

/-- Failure continuation of `handleAddComment` (the `catch`, lines 1100-1107):
only an error message; the gallery is left unchanged. -/
def handleAddCommentFail (s : AppState) (detail : String) : AppState :=
  { s with message := some ⟨MsgType.error, MsgText.commentFailed detail⟩ }

/-- The `clearGallery` handler (App.tsx lines 968-1001). `outcome` gives the
settlement of each per-item `api.delete` promise (`true` = fulfilled);
`Promise.all` rejects as soon as any delete rejects, so the `try` branch is
taken exactly when every delete for an item with an `originalFilename`
succeeds. Both branches clear the gallery; their messages differ: the success
text interpolates `deletedCount/totalCount` (with `deletedCount =
itemsWithFilename.length`), the catch text is generic with the error detail.
Returns the new state and the list of delete-request refs issued. -/
def clearGallery (s : AppState) (outcome : GalleryItem → Bool) (detail : String) :
    AppState × List String :=
  if s.gallery = [] then (s, [])
  else
    let itemsWithFilename := s.gallery.filter fun item => item.originalFilename ≠ ""
    let refs := itemsWithFilename.map fun item => item.originalFilename
    if itemsWithFilename.all outcome then
      ({ gallery := [],
         message := some ⟨MsgType.success,
           MsgText.clearedAll itemsWithFilename.length s.gallery.length⟩ }, refs)
    else
      ({ gallery := [],
         message := some ⟨MsgType.error, MsgText.clearFailedGeneric detail⟩ }, refs)

/-- User profile as mapped on the client (interface `UserProfile`, minus the
embedded posts, which the handlers below never read). -/
structure UserProfile where
  id : Int
  username : String
  displayName : String
  bio : String
  interests : List String
  avatar_name : Option String
deriving DecidableEq

/-- Follow statistics returned by `GET /users/\x7bid\x7d/follow-stats`. -/
structure FollowStats where
  followers : Int
  following : Int
deriving DecidableEq

/-- The slice of state owned by the profile-navigation reconciler:
`viewingProfile`, `viewingProfileStats`, `isFollowing`. -/
structure ProfileState where
  viewingProfile : Option UserProfile
  viewingProfileStats : Option FollowStats
  isFollowing : Bool
deriving DecidableEq

/-- A request issued by the `viewingProfile` effect (App.tsx lines 420-448):
the follow-stats fetch or the is-following check for the viewed target. -/
inductive FollowRequest
| followStats (targetId : Int)
| isFollowingCheck (currentUserId targetId : Int)
deriving DecidableEq

/-- The `viewingProfile` effect body (App.tsx lines 420-448): when a profile is
being viewed it issues the follow-stats fetch and (when `getCurrentUserId()`
is truthy) the is-following check; when `viewingProfile` is null it resets
`viewingProfileStats` and `isFollowing`. The effect returns no cleanup. -/
def viewingProfileEffect (s : ProfileState) (uid : Option Int) :
    ProfileState × List FollowRequest :=
  match s.viewingProfile with
  | some p =>
    (s, FollowRequest.followStats p.id ::
        (match uid with
         | some u => if u == 0 then [] else [FollowRequest.isFollowingCheck u p.id]
         | none => []))
  | none => ({ s with viewingProfileStats := none, isFollowing := false }, [])

/-- Resolution of the follow-stats fetch (lines 423-430): the `.then` callback
is `setViewingProfileStats(response.data)` with no guard on the current
context; the `.catch` sets zero counts. `ok` is the fulfilled payload,
`none` meaning the promise rejected. -/
def onFollowStatsSettled (s : ProfileState) (ok : Option FollowStats) : ProfileState :=
  match ok with
  | some stats => { s with viewingProfileStats := some stats }
  | none => { s with viewingProfileStats := some ⟨0, 0⟩ }

/-- Resolution of the is-following check (lines 435-442): `.then` is
`setIsFollowing(response.data.is_following)` with no guard; `.catch` sets
`false`. -/
def onIsFollowingSettled (s : ProfileState) (ok : Option Bool) : ProfileState :=
  match ok with
  | some b => { s with isFollowing := b }
  | none => { s with isFollowing := false }

/-- The `handleBackToMyProfile` handler (App.tsx lines 1157-1161). -/
def handleBackToMyProfile (s : ProfileState) : ProfileState :=
  { s with viewingProfile := none, viewingProfileStats := none, isFollowing := false }

/-- The active top-level page (`activePage: 'home' | 'search' | 'discover'`). -/
inductive Page
| home
| search
| discover
deriving DecidableEq

/-- A raw entry of the search response (`SearchApiResponse.results[i]`). -/
structure SearchApiUser where
  id : Int
  username : String
  display_name : String
  bio : String
  interests : Option (List String)
  avatar_name : Option String
deriving DecidableEq

/-- The body of `GET /users/search` (`interface SearchApiResponse`; the
`query` echo field is never read by the controller). -/
structure SearchApiResponse where
  count : Int
  results : List SearchApiUser
deriving DecidableEq

/-- The mapping applied to a search response (App.tsx lines 590-597). -/
def mapSearchResults (r : SearchApiResponse) : List UserProfile :=
  r.results.map fun user =>
    { id := user.id
      username := user.username
      displayName := user.display_name
      bio := user.bio
      interests := user.interests.getD []
      avatar_name := user.avatar_name }

/-- Search error banner, one constructor per template string in the source:
the zero-count "no users matched" text (line 602) and the generic transport
error text (line 608). -/
inductive SearchError
| noResults
| generic
deriving DecidableEq

/-- A search request: the `AbortController` identity (a fresh token per
effect run) and the trimmed query it carries. -/
structure SearchRequest where
  tok : Nat
  q : String
deriving DecidableEq

/-- State of the debounced search controller: the two React state deps
(`query`, `page`), the visible outputs (`results`, `loading`, `error`), the
mutable refs (`abortTok` = `searchAbortController.current`, `timer` =
the pending `setTimeout` callback with its closed-over controller and
trimmed query), the cleanup closure returned by the last effect run (the
token of the controller it closed over), the set of aborted controller
tokens, the requests issued and still unsettled, and a fresh-token supply. -/
structure SearchState where
  query : String
  page : Page
  results : List UserProfile
  loading : Bool
  error : Option SearchError
  abortTok : Option Nat
  timer : Option SearchRequest
  cleanup : Option Nat
  aborted : List Nat
  inFlight : List SearchRequest
  nextTok : Nat
deriving DecidableEq

/-- JS `String.prototype.trim()` as called on `searchQuery` (line 538):
strip leading and trailing whitespace. Defined by list recursion so that it
evaluates on concrete inputs. -/
def jsTrim (s : String) : String :=
  ⟨((s.data.dropWhile Char.isWhitespace).reverse.dropWhile Char.isWhitespace).reverse⟩

/-- The cleanup closure of the search effect (App.tsx lines 615-624): abort
the controller this effect created, null the shared ref if it still holds
that controller, and clear the debounce timer. React runs it before the next
effect run (and on unmount). Effect runs that returned early produced no
cleanup. -/
def runSearchCleanup (s : SearchState) : SearchState :=
  match s.cleanup with
  | none => s
  | some t =>
    { s with
      aborted := t :: s.aborted
      abortTok := if s.abortTok = some t then none else s.abortTok
      timer := none
      cleanup := none }

/-- The search effect body (App.tsx lines 537-613), run after the cleanup of
the previous run. Off the search page it resets the outputs and aborts and
clears everything (lines 540-553). On the search page it clears any pending
debounce (555-558); a trimmed query of length 1 aborts the in-flight
controller and resets the outputs without issuing anything (562-572);
otherwise (empty or length >= 2) it sets `loading`, clears `error`, creates a
fresh controller, stores it in the ref, and arms the 350ms debounce whose
callback will issue the request with the trimmed query (574-613). -/
def searchEffectBody (s : SearchState) : SearchState :=
  let trimmedQuery := jsTrim s.query
  if s.page ≠ Page.search then
    { s with
      loading := false
      results := []
      error := none
      aborted := match s.abortTok with | some t => t :: s.aborted | none => s.aborted
      abortTok := none
      timer := none
      cleanup := none }
  else
    let s := { s with timer := none }
    if 0 < trimmedQuery.length ∧ trimmedQuery.length < 2 then
      { s with
        aborted := match s.abortTok with | some t => t :: s.aborted | none => s.aborted
        abortTok := none
        loading := false
        results := []
        error := none
        cleanup := none }
    else
      { s with
        loading := true
        error := none
        abortTok := some s.nextTok
        timer := some ⟨s.nextTok, trimmedQuery⟩
        cleanup := some s.nextTok
        nextTok := s.nextTok + 1 }

/-- Events of the search controller's event loop: a change of the query or
page dep (which re-runs cleanup + effect body), the debounce timer firing
(which issues the request), and the settlement of an issued request. A
request whose controller was aborted settles through the cancel path
(`axios.isCancel`), regardless of what the transport did. -/
inductive SearchEvent
| setQuery (q : String)
| setPage (p : Page)
| timerFire
| respOk (tok : Nat) (r : SearchApiResponse)
| respErr (tok : Nat)
deriving DecidableEq

/-- One step of the search controller. On `respOk` with a live (non-aborted)
controller: replace `results` with the mapped payload and set the zero-count
"no results" error or clear it (lines 599-604), then `finally` clears
`loading`. On `respErr` with a live controller: set the generic error (lines
605-609), then `finally`. A settlement for an aborted controller is an axios
cancel: swallowed silently, only the `finally` runs (lines 606, 610-612). -/
def searchStep (s : SearchState) : SearchEvent → SearchState
  | SearchEvent.setQuery q => searchEffectBody (runSearchCleanup { s with query := q })
  | SearchEvent.setPage p => searchEffectBody (runSearchCleanup { s with page := p })
  | SearchEvent.timerFire =>
    match s.timer with
    | none => s
    | some r => { s with timer := none, inFlight := r :: s.inFlight }
  | SearchEvent.respOk tok r =>
    if s.inFlight.any (fun req => req.tok == tok) then
      let s' := { s with inFlight := s.inFlight.filter fun req => req.tok ≠ tok }
      if s.aborted.contains tok then
        { s' with loading := false }
      else
        { s' with
          results := mapSearchResults r
          error := if r.count = 0 then some SearchError.noResults else none
          loading := false }
    else s
  | SearchEvent.respErr tok =>
    if s.inFlight.any (fun req => req.tok == tok) then
      let s' := { s with inFlight := s.inFlight.filter fun req => req.tok ≠ tok }
      if s.aborted.contains tok then
        { s' with loading := false }
      else
        { s' with error := some SearchError.generic, loading := false }
    else s

/-- Run a list of search events from a state. -/
def searchRun (s : SearchState) (es : List SearchEvent) : SearchState :=
  es.foldl searchStep s

/-- A response event for a request whose controller is already aborted (a
superseded or canceled request). -/
def isStaleResp (aborted : List Nat) : SearchEvent → Bool
  | SearchEvent.respOk tok _ => aborted.contains tok
  | SearchEvent.respErr tok => aborted.contains tok
  | _ => false

/-- The controller-owned observables of the search state: everything except
the raw `query` dep itself. -/
def searchObs (s : SearchState) :
    List UserProfile × Bool × Option SearchError × Option Nat × Option SearchRequest ×
    Option Nat × List Nat × List SearchRequest × Nat :=
  (s.results, s.loading, s.error, s.abortTok, s.timer, s.cleanup, s.aborted,
   s.inFlight, s.nextTok)

/-! Concrete sample data, used to instantiate theorems with hypotheses. -/

/-- A sample gallery item matching the spec's worked example
(`isLiked = false`, `likeCount = 3`). -/
def sampleA : GalleryItem :=
  { id := "itemA", original := "origA.png", improved := "impA.png",
    filename := "drawingA.png", originalFilename := "refA", timestamp := 100,
    title := some "Benim Eserim", emoji := some "🎨", likeCount := 3,
    isLiked := false, mode := some "anime", commentCount := 0, comments := [],
    visibility := Visibility.publicV }

/-- A second, distinct sample gallery item. -/
def sampleB : GalleryItem :=
  { id := "itemB", original := "origB.png", improved := "impB.png",
    filename := "drawingB.png", originalFilename := "refB", timestamp := 200,
    title := none, emoji := none, likeCount := 1, isLiked := true,
    mode := none, commentCount := 1,
    comments := [⟨"c1", 4, "ali", "Ali", none, "Harika!", 150⟩],
    visibility := Visibility.publicV }

/-- A sample search payload (one user, count 1). -/
def sampleSearchResp : SearchApiResponse :=
  ⟨1, [⟨3, "mehmet", "Mehmet Usta", "resim sever", some ["resim"], none⟩]⟩

/-- A different payload, standing for a superseded request's response. -/
def staleSearchResp : SearchApiResponse :=
  ⟨1, [⟨2, "ali", "Ali", "", none, none⟩]⟩

/-- A search state in which the request for "ab" (token 0) has been
superseded (its controller aborted) by the settled query "abc" (token 1,
in flight and current). -/
def sampleSearchState : SearchState :=
  { query := "abc", page := Page.search, results := [], loading := true,
    error := none, abortTok := some 1, timer := some ⟨1, "abc"⟩,
    cleanup := some 1, aborted := [0], inFlight := [⟨1, "abc"⟩, ⟨0, "ab"⟩],
    nextTok := 2 }

/-! Theorems for the claims. -/

/-- C1. With a valid session, the like toggle snapshots the pre-action
collection, immediately flips the target item's `isLiked` and adjusts its
`likeCount` by -1 when it was liked and +1 when it was not, and on backend
failure restores exactly the Step-1 snapshot and surfaces the generic
failure notification. -/
theorem likeToggle_optimistic_flip_and_exact_rollback
    (s : AppState) (uid : Int) (huid : ¬ uid = 0) (k : Nat)
    (item : GalleryItem) (hitem : s.gallery[k]? = some item) :
    (handleToggleLikeStart s item (some uid)).2.2 = some s.gallery
    ∧ ((handleToggleLikeStart s item (some uid)).1.gallery[k]?.map
        (fun it => it.isLiked)) = some (!item.isLiked)
    ∧ ((handleToggleLikeStart s item (some uid)).1.gallery[k]?.map
        (fun it => it.likeCount))
      = some (if item.isLiked then item.likeCount - 1 else item.likeCount + 1)
    ∧ handleToggleLikeFail (handleToggleLikeStart s item (some uid)).1 s.gallery
      = { gallery := s.gallery, message := some ⟨MsgType.error, MsgText.likeFailed⟩ } := by
  refine ⟨?_, ?_, ?_, ?_⟩ <;>
    simp [handleToggleLikeStart, handleToggleLikeFail, applyLikeToggle, falsyId,
      huid, List.getElem?_map, hitem]

/-- C1 witness: the spec's worked example, from `isLiked = false,
likeCount = 3` the toggle yields `isLiked = true, likeCount = 4`, and the
failure path restores the exact prior state. -/
theorem likeToggle_optimistic_flip_and_exact_rollback_witness :
    (handleToggleLikeStart ⟨[sampleA, sampleB], none⟩ sampleA (some 7)).2.2
      = some [sampleA, sampleB]
    ∧ ((handleToggleLikeStart ⟨[sampleA, sampleB], none⟩ sampleA (some 7)).1.gallery[0]?.map
        (fun it => it.isLiked)) = some (!sampleA.isLiked)
    ∧ ((handleToggleLikeStart ⟨[sampleA, sampleB], none⟩ sampleA (some 7)).1.gallery[0]?.map
        (fun it => it.likeCount))
      = some (if sampleA.isLiked then sampleA.likeCount - 1 else sampleA.likeCount + 1)
    ∧ handleToggleLikeFail
        (handleToggleLikeStart ⟨[sampleA, sampleB], none⟩ sampleA (some 7)).1
        [sampleA, sampleB]
      = { gallery := [sampleA, sampleB],
          message := some ⟨MsgType.error, MsgText.likeFailed⟩ } :=
  likeToggle_optimistic_flip_and_exact_rollback ⟨[sampleA, sampleB], none⟩ 7
    (by decide) 0 sampleA (by decide)

/-- C10. Both optimistic apply steps are frame-preserving: they preserve the
collection's length; an item whose id differs from the target is unchanged
entirely; and on every item (the target included) the like apply leaves every
field other than `isLiked` and `likeCount` unchanged, and the visibility
apply leaves every field other than `visibility` unchanged. -/
theorem optimistic_apply_frame_preserving
    (g : List GalleryItem) (targetId : String) (newVis : Visibility)
    (k : Nat) (item : GalleryItem) (h : g[k]? = some item) :
    (applyLikeToggle g targetId).length = g.length
    ∧ (applyVisibilityToggle g targetId newVis).length = g.length
    ∧ (¬ item.id = targetId → (applyLikeToggle g targetId)[k]? = some item)
    ∧ (¬ item.id = targetId →
        (applyVisibilityToggle g targetId newVis)[k]? = some item)
    ∧ ((applyLikeToggle g targetId)[k]?.map
        (fun it => (it.id, it.original, it.improved, it.filename,
          it.originalFilename, it.timestamp, it.title, it.emoji, it.mode,
          it.commentCount, it.comments, it.visibility)))
      = some (item.id, item.original, item.improved, item.filename,
          item.originalFilename, item.timestamp, item.title, item.emoji,
          item.mode, item.commentCount, item.comments, item.visibility)
    ∧ ((applyVisibilityToggle g targetId newVis)[k]?.map
        (fun it => (it.id, it.original, it.improved, it.filename,
          it.originalFilename, it.timestamp, it.title, it.emoji, it.mode,
          it.commentCount, it.comments, it.isLiked, it.likeCount)))
      = some (item.id, item.original, item.improved, item.filename,
          item.originalFilename, item.timestamp, item.title, item.emoji,
          item.mode, item.commentCount, item.comments, item.isLiked,
          item.likeCount) := by
  refine ⟨?_, ?_, fun hne => ?_, fun hne => ?_, ?_, ?_⟩
  · simp [applyLikeToggle]
  · simp [applyVisibilityToggle]
  · simp [applyLikeToggle, List.getElem?_map, h, hne]
  · simp [applyVisibilityToggle, List.getElem?_map, h, hne]
  · simp only [applyLikeToggle, List.getElem?_map, h, Option.map_some']
    split <;> simp
  · simp only [applyVisibilityToggle, List.getElem?_map, h, Option.map_some']
    split <;> simp

/-- C10 witness: the frame conditions evaluated at a concrete gallery, with
a target id that does not match the inspected item. -/
theorem optimistic_apply_frame_preserving_witness :
    (applyLikeToggle [sampleA, sampleB] "itemB").length = [sampleA, sampleB].length
    ∧ (applyVisibilityToggle [sampleA, sampleB] "itemB" Visibility.privateV).length
      = [sampleA, sampleB].length
    ∧ (¬ sampleA.id = "itemB" →
        (applyLikeToggle [sampleA, sampleB] "itemB")[0]? = some sampleA)
    ∧ (¬ sampleA.id = "itemB" →
        (applyVisibilityToggle [sampleA, sampleB] "itemB" Visibility.privateV)[0]?
          = some sampleA)
    ∧ ((applyLikeToggle [sampleA, sampleB] "itemB")[0]?.map
        (fun it => (it.id, it.original, it.improved, it.filename,
          it.originalFilename, it.timestamp, it.title, it.emoji, it.mode,
          it.commentCount, it.comments, it.visibility)))
      = some (sampleA.id, sampleA.original, sampleA.improved, sampleA.filename,
          sampleA.originalFilename, sampleA.timestamp, sampleA.title,
          sampleA.emoji, sampleA.mode, sampleA.commentCount, sampleA.comments,
          sampleA.visibility)
    ∧ ((applyVisibilityToggle [sampleA, sampleB] "itemB" Visibility.privateV)[0]?.map
        (fun it => (it.id, it.original, it.improved, it.filename,
          it.originalFilename, it.timestamp, it.title, it.emoji, it.mode,
          it.commentCount, it.comments, it.isLiked, it.likeCount)))
      = some (sampleA.id, sampleA.original, sampleA.improved, sampleA.filename,
          sampleA.originalFilename, sampleA.timestamp, sampleA.title,
          sampleA.emoji, sampleA.mode, sampleA.commentCount, sampleA.comments,
          sampleA.isLiked, sampleA.likeCount) :=
  optimistic_apply_frame_preserving [sampleA, sampleB] "itemB"
    Visibility.privateV 0 sampleA (by decide)

/-- C8 counterexample: with no session identity, `handleToggleVisibility`
returns before doing anything (`if (!currentUserId) return;`): no mutation
and no request, but also no user-facing "must be signed in" message — the
state, message included, is exactly unchanged, refuting the claim that both
mutation kinds surface a sign-in condition. -/
theorem visibility_no_session_silent_counterexample :
    handleToggleVisibilityStart ⟨[sampleB], none⟩ sampleB none
      = (⟨[sampleB], none⟩, none, none)
    ∧ (handleToggleVisibilityStart ⟨[sampleB], none⟩ sampleB none).1.message
      = none := by decide

/-- C8 amended. With no valid session identity (a falsy `getCurrentUserId()`
result), neither mutation kind performs any local state change or issues any
backend request; the like toggle surfaces the "must be signed in" error
message, while the visibility toggle fails fast silently, leaving even the
message untouched. -/
theorem no_session_fails_fast_without_mutation
    (s : AppState) (item : GalleryItem) (uid : Option Int)
    (h : falsyId uid = true) :
    handleToggleLikeStart s item uid
      = ({ s with message := some ⟨MsgType.error, MsgText.mustSignInToLike⟩ },
         none, none)
    ∧ (handleToggleLikeStart s item uid).1.gallery = s.gallery
    ∧ handleToggleVisibilityStart s item uid = (s, none, none) := by
  refine ⟨?_, ?_, ?_⟩ <;>
    simp [handleToggleLikeStart, handleToggleVisibilityStart, h]

/-- C8 amended witness: the amended behavior at a concrete state with no
session. -/
theorem no_session_fails_fast_without_mutation_witness :
    handleToggleLikeStart ⟨[sampleA], none⟩ sampleA none
      = ({ gallery := [sampleA],
           message := some ⟨MsgType.error, MsgText.mustSignInToLike⟩ },
         none, none)
    ∧ (handleToggleLikeStart ⟨[sampleA], none⟩ sampleA none).1.gallery = [sampleA]
    ∧ handleToggleVisibilityStart ⟨[sampleA], none⟩ sampleA none
      = (⟨[sampleA], none⟩, none, none) :=
  no_session_fails_fast_without_mutation ⟨[sampleA], none⟩ sampleA none (by decide)

/-- C2 counterexample: an interleaving of the single-threaded event loop in
which a rollback of item A does undo a succeeded concurrent mutation of item
B. Item A's like toggle runs first (snapshot, optimistic apply), then item
B's visibility toggle runs (its own snapshot, optimistic apply, turning B
private), B's backend call succeeds, and finally A's backend call fails. A's
rollback replaces the whole collection with A's snapshot, which predates B's
apply: B is public again even though its PATCH succeeded, so B's
post-mutation value does not survive A's rollback. -/
theorem rollback_undoes_concurrent_mutation_counterexample :
    ((handleToggleVisibilityStart
        (handleToggleLikeStart ⟨[sampleA, sampleB], none⟩ sampleA (some 7)).1
        sampleB (some 7)).1.gallery[1]?.map (fun it => it.visibility))
      = some Visibility.privateV
    ∧ (handleToggleVisibilityStart
        (handleToggleLikeStart ⟨[sampleA, sampleB], none⟩ sampleA (some 7)).1
        sampleB (some 7)).2.1
      = some ⟨"refB", Visibility.privateV⟩
    ∧ (handleToggleLikeStart ⟨[sampleA, sampleB], none⟩ sampleA (some 7)).2.2
      = some [sampleA, sampleB]
    ∧ ((handleToggleLikeFail
        (handleToggleVisibilityOk
          (handleToggleVisibilityStart
            (handleToggleLikeStart ⟨[sampleA, sampleB], none⟩ sampleA (some 7)).1
            sampleB (some 7)).1
          Visibility.privateV)
        [sampleA, sampleB]).gallery[1]?.map (fun it => it.visibility))
      = some Visibility.publicV := by decide

/-- C2 amended. A rollback replaces the whole collection with the failing
mutation's own snapshot, so a concurrently succeeded mutation of item B
survives A's rollback exactly in the interleavings in which B's optimistic
apply happened before A's snapshot was taken: when B's visibility toggle
runs before A's like toggle, A's snapshot already contains B's new value and
B's post-mutation value survives A's failure rollback; when B applies after
A's snapshot, the rollback reverts B's succeeded change as well (see the
counterexample). -/
theorem rollback_preserves_mutation_applied_before_snapshot
    (s : AppState) (uidA uidB : Int) (hA : ¬ uidA = 0) (hB : ¬ uidB = 0)
    (itemA itemB : GalleryItem) (k : Nat)
    (hkB : s.gallery[k]? = some itemB) :
    (handleToggleLikeStart
        (handleToggleVisibilityStart s itemB (some uidB)).1 itemA (some uidA)).2.2
      = some (handleToggleVisibilityStart s itemB (some uidB)).1.gallery
    ∧ ((handleToggleLikeFail
        (handleToggleVisibilityOk
          (handleToggleLikeStart
            (handleToggleVisibilityStart s itemB (some uidB)).1 itemA (some uidA)).1
          (if itemB.visibility = Visibility.publicV then Visibility.privateV
           else Visibility.publicV))
        (handleToggleVisibilityStart s itemB (some uidB)).1.gallery).gallery[k]?.map
          (fun it => it.visibility))
      = some (if itemB.visibility = Visibility.publicV then Visibility.privateV
              else Visibility.publicV) := by
  constructor
  · simp [handleToggleLikeStart, handleToggleVisibilityStart, falsyId, hA, hB]
  · simp only [handleToggleLikeFail, handleToggleVisibilityStart, falsyId, hB,
      Option.some.injEq]
    simp only [falsyId, hB, beq_iff_eq, if_neg hB]
    simp [applyVisibilityToggle, List.getElem?_map, hkB]

/-- C2 amended witness: item B's visibility toggle applies before item A's
like toggle takes its snapshot; after B's success and A's failure rollback,
B is still private. -/
theorem rollback_preserves_mutation_applied_before_snapshot_witness :
    (handleToggleLikeStart
        (handleToggleVisibilityStart ⟨[sampleA, sampleB], none⟩ sampleB (some 7)).1
        sampleA (some 7)).2.2
      = some (handleToggleVisibilityStart ⟨[sampleA, sampleB], none⟩ sampleB
          (some 7)).1.gallery
    ∧ ((handleToggleLikeFail
        (handleToggleVisibilityOk
          (handleToggleLikeStart
            (handleToggleVisibilityStart ⟨[sampleA, sampleB], none⟩ sampleB
              (some 7)).1 sampleA (some 7)).1
          (if sampleB.visibility = Visibility.publicV then Visibility.privateV
           else Visibility.publicV))
        (handleToggleVisibilityStart ⟨[sampleA, sampleB], none⟩ sampleB
          (some 7)).1.gallery).gallery[1]?.map (fun it => it.visibility))
      = some (if sampleB.visibility = Visibility.publicV then Visibility.privateV
              else Visibility.publicV) :=
  rollback_preserves_mutation_applied_before_snapshot ⟨[sampleA, sampleB], none⟩
    7 7 (by decide) (by decide) sampleA sampleB 1 (by decide)

/-- C7. Comment creation writes nothing before confirmation: the start step
leaves the state unchanged and issues the POST keyed by the item's
server-side reference. On confirmation the server-returned canonical record
is appended to the target item's list — appearing exactly once when it was
not already there — and `commentCount` rises by exactly 1, while an item
with a different id is untouched. On failure the gallery is unchanged and an
error is reported. -/
theorem addComment_confirmed_append_exactly_once
    (s : AppState) (uid : Int) (huid : ¬ uid = 0) (item : GalleryItem)
    (href : ¬ item.originalFilename = "") (presetId : Int)
    (k : Nat) (hk : s.gallery[k]? = some item)
    (c : Comment) (hc : c ∉ item.comments)
    (j : Nat) (other : GalleryItem) (hj : s.gallery[j]? = some other)
    (hne : ¬ other.id = item.id) (detail : String) :
    handleAddCommentStart s (some item) (some uid) presetId
      = (s, some ⟨item.originalFilename, presetId⟩)
    ∧ ((handleAddCommentOk s item.id c).gallery[k]?.map
        (fun it => it.comments)) = some (item.comments ++ [c])
    ∧ ((handleAddCommentOk s item.id c).gallery[k]?.map
        (fun it => it.comments.count c)) = some 1
    ∧ ((handleAddCommentOk s item.id c).gallery[k]?.map
        (fun it => it.commentCount)) = some (item.commentCount + 1)
    ∧ (handleAddCommentOk s item.id c).gallery[j]? = some other
    ∧ handleAddCommentFail s detail
      = { s with message := some ⟨MsgType.error, MsgText.commentFailed detail⟩ } := by
  refine ⟨?_, ?_, ?_, ?_, ?_, ?_⟩
  · simp [handleAddCommentStart, falsyId, huid, href]
  · simp [handleAddCommentOk, List.getElem?_map, hk]
  · simp [handleAddCommentOk, List.getElem?_map, hk, List.count_append,
      List.count_eq_zero.mpr hc, List.count_singleton]
  · simp [handleAddCommentOk, List.getElem?_map, hk]
  · simp [handleAddCommentOk, List.getElem?_map, hj, hne]
  · simp [handleAddCommentFail]

/-- C7 witness: a concrete comment added to `sampleA` in a two-item gallery,
with the server record appearing exactly once and `sampleB` untouched. -/
theorem addComment_confirmed_append_exactly_once_witness :
    handleAddCommentStart ⟨[sampleA, sampleB], none⟩ (some sampleA) (some 7) 2
      = (⟨[sampleA, sampleB], none⟩, some ⟨sampleA.originalFilename, 2⟩)
    ∧ ((handleAddCommentOk ⟨[sampleA, sampleB], none⟩ sampleA.id
        ⟨"c9", 7, "esra", "Esra", none, "Bayıldım!", 300⟩).gallery[0]?.map
        (fun it => it.comments))
      = some (sampleA.comments ++ [⟨"c9", 7, "esra", "Esra", none, "Bayıldım!", 300⟩])
    ∧ ((handleAddCommentOk ⟨[sampleA, sampleB], none⟩ sampleA.id
        ⟨"c9", 7, "esra", "Esra", none, "Bayıldım!", 300⟩).gallery[0]?.map
        (fun it => it.comments.count ⟨"c9", 7, "esra", "Esra", none, "Bayıldım!", 300⟩))
      = some 1
    ∧ ((handleAddCommentOk ⟨[sampleA, sampleB], none⟩ sampleA.id
        ⟨"c9", 7, "esra", "Esra", none, "Bayıldım!", 300⟩).gallery[0]?.map
        (fun it => it.commentCount)) = some (sampleA.commentCount + 1)
    ∧ (handleAddCommentOk ⟨[sampleA, sampleB], none⟩ sampleA.id
        ⟨"c9", 7, "esra", "Esra", none, "Bayıldım!", 300⟩).gallery[1]? = some sampleB
    ∧ handleAddCommentFail ⟨[sampleA, sampleB], none⟩ "boom"
      = { gallery := [sampleA, sampleB],
          message := some ⟨MsgType.error, MsgText.commentFailed "boom"⟩ } :=
  addComment_confirmed_append_exactly_once ⟨[sampleA, sampleB], none⟩ 7
    (by decide) sampleA (by decide) 2 0 (by decide)
    ⟨"c9", 7, "esra", "Esra", none, "Bayıldım!", 300⟩ (by decide)
    1 sampleB (by decide) (by decide) "boom"

/-- C9 counterexample: clearing a two-item gallery where one backend delete
fails. `Promise.all` rejects, so the `catch` branch runs: the gallery is
still cleared, but the user-facing message is the generic failure text,
which carries no count of successes versus total — in particular it is not
the summary message for 1 success out of 2 items. -/
theorem clearGallery_partial_failure_no_summary_counterexample :
    (clearGallery ⟨[sampleA, sampleB], none⟩
        (fun it => it.originalFilename == "refA") "Network Error").1.gallery = []
    ∧ (clearGallery ⟨[sampleA, sampleB], none⟩
        (fun it => it.originalFilename == "refA") "Network Error").1.message
      = some ⟨MsgType.error, MsgText.clearFailedGeneric "Network Error"⟩
    ∧ ¬ (MsgText.clearFailedGeneric "Network Error" = MsgText.clearedAll 1 2) := by
  decide

/-- C9 amended. Clearing the gallery is best-effort locally: the gallery is
cleared regardless of backend outcomes. The summary count (items with a
backend filename deleted, versus the total item count) is reported only when
every per-item delete succeeds; if any delete fails, `Promise.all` rejects
and the message is a generic error carrying no counts, though the gallery is
still cleared. -/
theorem clearGallery_best_effort_summary_only_on_full_success
    (s : AppState) (outcome : GalleryItem → Bool) (detail : String)
    (hne : ¬ s.gallery = []) :
    (clearGallery s outcome detail).1.gallery = []
    ∧ ((s.gallery.filter fun it => it.originalFilename ≠ "").all outcome = true →
        (clearGallery s outcome detail).1.message
        = some ⟨MsgType.success,
            MsgText.clearedAll
              (s.gallery.filter fun it => it.originalFilename ≠ "").length
              s.gallery.length⟩)
    ∧ (¬ (s.gallery.filter fun it => it.originalFilename ≠ "").all outcome = true →
        (clearGallery s outcome detail).1.message
        = some ⟨MsgType.error, MsgText.clearFailedGeneric detail⟩) := by
  refine ⟨?_, fun hall => ?_, fun hnall => ?_⟩ <;>
    simp only [clearGallery, if_neg hne] <;>
    [skip; rw [if_pos hall]; rw [if_neg hnall]]
  · split <;> rfl

/-- C9 amended witness: both outcomes at a concrete two-item gallery — all
deletes succeeding yields the 2-of-2 summary; here every delete succeeds. -/
theorem clearGallery_best_effort_summary_only_on_full_success_witness :
    (clearGallery ⟨[sampleA, sampleB], none⟩ (fun _ => true) "boom").1.gallery = []
    ∧ (([sampleA, sampleB].filter fun it => it.originalFilename ≠ "").all
          (fun _ => true) = true →
        (clearGallery ⟨[sampleA, sampleB], none⟩ (fun _ => true) "boom").1.message
        = some ⟨MsgType.success,
            MsgText.clearedAll
              ([sampleA, sampleB].filter fun it => it.originalFilename ≠ "").length
              [sampleA, sampleB].length⟩)
    ∧ (¬ ([sampleA, sampleB].filter fun it => it.originalFilename ≠ "").all
          (fun _ => true) = true →
        (clearGallery ⟨[sampleA, sampleB], none⟩ (fun _ => true) "boom").1.message
        = some ⟨MsgType.error, MsgText.clearFailedGeneric "boom"⟩) :=
  clearGallery_best_effort_summary_only_on_full_success ⟨[sampleA, sampleB], none⟩
    (fun _ => true) "boom" (by decide)

/-- C6 counterexample: viewing another user's profile issues the follow-stats
fetch; returning to the self profile resets the derived state; but when the
late response for the abandoned target resolves, its `.then` callback
installs the payload with no guard on the current context, overwriting the
reset state with the abandoned target's data. -/
theorem late_follow_stats_overwrite_counterexample :
    (viewingProfileEffect ⟨some ⟨9, "zeynep", "Zeynep", "", [], none⟩, none, false⟩
        (some 4)).2
      = [FollowRequest.followStats 9, FollowRequest.isFollowingCheck 4 9]
    ∧ (handleBackToMyProfile
        (viewingProfileEffect ⟨some ⟨9, "zeynep", "Zeynep", "", [], none⟩, none, false⟩
          (some 4)).1).viewingProfileStats = none
    ∧ (onFollowStatsSettled
        (handleBackToMyProfile
          (viewingProfileEffect
            ⟨some ⟨9, "zeynep", "Zeynep", "", [], none⟩, none, false⟩ (some 4)).1)
        (some ⟨5, 7⟩)).viewingProfileStats = some ⟨5, 7⟩ := by decide

/-- C6 amended. `handleBackToMyProfile` does reset all follow-related derived
state unconditionally, even with a fetch for the abandoned target still in
flight; but a late-arriving response for that target is not ignored: the
resolution callbacks install their payload with no identity guard of any
kind, so the abandoned target's stats and follow flag overwrite the reset
self-profile state when they resolve. -/
theorem back_to_profile_resets_but_late_responses_overwrite
    (s : ProfileState) (stats : FollowStats) (b : Bool) :
    handleBackToMyProfile s = ⟨none, none, false⟩
    ∧ (onFollowStatsSettled (handleBackToMyProfile s) (some stats)).viewingProfileStats
      = some stats
    ∧ (onIsFollowingSettled (handleBackToMyProfile s) (some b)).isFollowing = b := by
  refine ⟨?_, ?_, ?_⟩ <;>
    simp [handleBackToMyProfile, onFollowStatsSettled, onIsFollowingSettled]

/-- Helper: trimming the empty query is the identity. -/
lemma jsTrim_empty : jsTrim "" = "" := rfl

/-- Helper: a response for an aborted controller settles through the axios
cancel path, which changes neither `results` nor the aborted set. -/
lemma searchStep_stale_resp (s : SearchState) (e : SearchEvent)
    (h : isStaleResp s.aborted e = true) :
    (searchStep s e).results = s.results ∧ (searchStep s e).aborted = s.aborted := by
  cases e with
  | setQuery q => simp [isStaleResp] at h
  | setPage p => simp [isStaleResp] at h
  | timerFire => simp [isStaleResp] at h
  | respOk tok r =>
    simp only [isStaleResp] at h
    have hm : tok ∈ s.aborted := by simpa using h
    by_cases hany : s.inFlight.any (fun req => req.tok == tok) = true <;>
      simp [searchStep, hany, hm]
  | respErr tok =>
    simp only [isStaleResp] at h
    have hm : tok ∈ s.aborted := by simpa using h
    by_cases hany : s.inFlight.any (fun req => req.tok == tok) = true <;>
      simp [searchStep, hany, hm]

/-- Helper: a stale settlement does not remove a live (non-aborted) request
from the in-flight set. -/
lemma searchStep_stale_resp_keeps_live (s : SearchState) (e : SearchEvent) (t : Nat)
    (h : isStaleResp s.aborted e = true)
    (hnab : s.aborted.contains t = false)
    (hin : s.inFlight.any (fun req => req.tok == t) = true) :
    (searchStep s e).inFlight.any (fun req => req.tok == t) = true := by
  cases e with
  | setQuery q => simp [isStaleResp] at h
  | setPage p => simp [isStaleResp] at h
  | timerFire => simp [isStaleResp] at h
  | respOk tok r =>
    simp only [isStaleResp] at h
    have htok : ¬ t = tok := by
      intro heq; rw [heq, h] at hnab; exact Bool.noConfusion hnab
    by_cases hany : s.inFlight.any (fun req => req.tok == tok) = true
    · rw [List.any_eq_true] at hin
      obtain ⟨req, hreq, hreqt⟩ := hin
      simp only [searchStep, hany, if_true, h, if_true]
      rw [List.any_eq_true]
      refine ⟨req, List.mem_filter.mpr ⟨hreq, ?_⟩, hreqt⟩
      simp only [beq_iff_eq] at hreqt
      simp [hreqt, htok]
    · simp [searchStep, hany, hin]
  | respErr tok =>
    simp only [isStaleResp] at h
    have htok : ¬ t = tok := by
      intro heq; rw [heq, h] at hnab; exact Bool.noConfusion hnab
    by_cases hany : s.inFlight.any (fun req => req.tok == tok) = true
    · rw [List.any_eq_true] at hin
      obtain ⟨req, hreq, hreqt⟩ := hin
      simp only [searchStep, hany, if_true, h, if_true]
      rw [List.any_eq_true]
      refine ⟨req, List.mem_filter.mpr ⟨hreq, ?_⟩, hreqt⟩
      simp only [beq_iff_eq] at hreqt
      simp [hreqt, htok]
    · simp [searchStep, hany, hin]

/-- Helper: a run consisting solely of stale settlements never changes the
displayed results. -/
lemma searchRun_stale_results (es : List SearchEvent) (s : SearchState)
    (h : ∀ e ∈ es, isStaleResp s.aborted e = true) :
    (searchRun s es).results = s.results := by
  induction es generalizing s with
  | nil => rfl
  | cons e es ih =>
    have he := h e (List.mem_cons_self e es)
    obtain ⟨hres, hab⟩ := searchStep_stale_resp s e he
    have hrun : searchRun s (e :: es) = searchRun (searchStep s e) es := rfl
    rw [hrun, ih (searchStep s e) (fun e' he' => by
      rw [hab]; exact h e' (List.mem_cons_of_mem e he')), hres]

/-- Helper: a success settlement of a live in-flight request installs the
mapped payload as the results and leaves the aborted set unchanged. -/
lemma searchStep_respOk_live (s : SearchState) (t : Nat) (d : SearchApiResponse)
    (hin : s.inFlight.any (fun req => req.tok == t) = true)
    (hnab : s.aborted.contains t = false) :
    (searchStep s (SearchEvent.respOk t d)).results = mapSearchResults d
    ∧ (searchStep s (SearchEvent.respOk t d)).aborted = s.aborted := by
  have hm : ¬ t ∈ s.aborted := by simpa using hnab
  simp [searchStep, hin, hm]

/-- Helper: the cleanup closure always aborts the controller of the effect
run that produced it. -/
lemma runSearchCleanup_cleanup_aborted (s : SearchState) (c : Nat)
    (hcl : s.cleanup = some c) :
    (runSearchCleanup s).aborted.contains c = true := by
  simp [runSearchCleanup, hcl]

/-- Helper: the effect body never un-aborts a controller. -/
lemma searchEffectBody_aborted_mono (x : SearchState) (c : Nat)
    (hx : x.aborted.contains c = true) :
    (searchEffectBody x).aborted.contains c = true := by
  have hx' : c ∈ x.aborted := by simpa using hx
  simp only [searchEffectBody]
  split
  · cases hax : x.abortTok <;> simp [hax, hx']
  · split
    · cases hax : x.abortTok <;> simp [hax, hx']
    · simpa using hx'

/-- C3. Per debounce-settled input the timer fire issues exactly one request
(and disarms the timer, so it cannot issue another); a new query entered
while an effect's controller is live aborts that controller, so superseded
requests are stale; and from a state whose current request `t` is live while
every other settlement is stale, the displayed results after any
interleaving of stale settlements around `t`'s response are exactly the
mapped payload of the last settled query — stale responses never replace
results. -/
theorem search_last_settled_query_wins
    (s : SearchState) (r : SearchRequest) (c : Nat) (q' : String)
    (t : Nat) (d : SearchApiResponse) (pre post : List SearchEvent)
    (hin : s.inFlight.any (fun req => req.tok == t) = true)
    (hnab : s.aborted.contains t = false)
    (hpre : ∀ e ∈ pre, isStaleResp s.aborted e = true)
    (hpost : ∀ e ∈ post, isStaleResp s.aborted e = true) :
    (s.timer = some r →
      (searchStep s SearchEvent.timerFire).inFlight = r :: s.inFlight
      ∧ (searchStep s SearchEvent.timerFire).timer = none)
    ∧ (s.cleanup = some c →
      (searchStep s (SearchEvent.setQuery q')).aborted.contains c = true)
    ∧ (searchRun s (pre ++ SearchEvent.respOk t d :: post)).results
      = mapSearchResults d := by
  refine ⟨fun htimer => ?_, fun hcl => ?_, ?_⟩
  · constructor <;> simp [searchStep, htimer]
  · show (searchEffectBody (runSearchCleanup { s with query := q' })).aborted.contains c
        = true
    exact searchEffectBody_aborted_mono _ c
      (runSearchCleanup_cleanup_aborted _ c (by simpa using hcl))
  · induction pre generalizing s with
    | nil =>
      have hrun : searchRun s (SearchEvent.respOk t d :: post)
          = searchRun (searchStep s (SearchEvent.respOk t d)) post := rfl
      rw [List.nil_append, hrun]
      obtain ⟨hres, hab⟩ := searchStep_respOk_live s t d hin hnab
      rw [searchRun_stale_results post _ (fun e' he' => by rw [hab]; exact hpost e' he'),
        hres]
    | cons e pre ih =>
      have he := hpre e (List.mem_cons_self e pre)
      obtain ⟨hres, hab⟩ := searchStep_stale_resp s e he
      have hstep : searchRun s ((e :: pre) ++ SearchEvent.respOk t d :: post)
          = searchRun (searchStep s e) (pre ++ SearchEvent.respOk t d :: post) := rfl
      rw [hstep]
      exact ih (searchStep s e)
        (searchStep_stale_resp_keeps_live s e t he hnab hin)
        (by rw [hab]; exact hnab)
        (fun e' he' => by rw [hab]; exact hpre e' (List.mem_cons_of_mem e he'))
        (fun e' he' => by rw [hab]; exact hpost e' he')

/-- C3 witness: the spec's simulation — the request for "ab" (token 0) is
superseded by "abc" (token 1); the "ab" response arrives after the "abc"
response, and the final displayed results are those for "abc". -/
theorem search_last_settled_query_wins_witness :
    (sampleSearchState.timer = some ⟨1, "abc"⟩ →
      (searchStep sampleSearchState SearchEvent.timerFire).inFlight
        = ⟨1, "abc"⟩ :: sampleSearchState.inFlight
      ∧ (searchStep sampleSearchState SearchEvent.timerFire).timer = none)
    ∧ (sampleSearchState.cleanup = some 1 →
      (searchStep sampleSearchState (SearchEvent.setQuery "abcd")).aborted.contains 1
        = true)
    ∧ (searchRun sampleSearchState
        ([] ++ SearchEvent.respOk 1 sampleSearchResp
          :: [SearchEvent.respOk 0 staleSearchResp])).results
      = mapSearchResults sampleSearchResp :=
  search_last_settled_query_wins sampleSearchState ⟨1, "abc"⟩ 1 "abcd" 1
    sampleSearchResp [] [SearchEvent.respOk 0 staleSearchResp]
    (by decide) (by decide) (by decide) (by decide)

/-- C4. On the search page, a query whose trimmed value is non-empty and
shorter than 2 characters resets the outputs (no results, not loading, no
error — the too-short presentation), arms no debounce and issues no request;
while a query that trims to empty behaves identically to the initial
empty-query default-results case on every controller observable: it arms the
debounce with the trimmed (empty) query, and the fire issues exactly that
request. -/
theorem search_too_short_no_request_and_empty_is_default
    (s : SearchState) (q1 q2 : String) (hpage : s.page = Page.search)
    (h1 : 0 < (jsTrim q1).length) (h2 : (jsTrim q1).length < 2)
    (hq2 : jsTrim q2 = "") :
    (searchStep s (SearchEvent.setQuery q1)).results = []
    ∧ (searchStep s (SearchEvent.setQuery q1)).loading = false
    ∧ (searchStep s (SearchEvent.setQuery q1)).error = none
    ∧ (searchStep s (SearchEvent.setQuery q1)).timer = none
    ∧ (searchStep s (SearchEvent.setQuery q1)).inFlight = s.inFlight
    ∧ searchObs (searchStep s (SearchEvent.setQuery q2))
        = searchObs (searchStep s (SearchEvent.setQuery ""))
    ∧ (searchStep s (SearchEvent.setQuery q2)).timer = some ⟨s.nextTok, ""⟩
    ∧ (searchStep s (SearchEvent.setQuery q2)).inFlight = s.inFlight
    ∧ (searchStep (searchStep s (SearchEvent.setQuery q2))
        SearchEvent.timerFire).inFlight = ⟨s.nextTok, ""⟩ :: s.inFlight := by
  have hshort :
      (searchStep s (SearchEvent.setQuery q1)).results = []
      ∧ (searchStep s (SearchEvent.setQuery q1)).loading = false
      ∧ (searchStep s (SearchEvent.setQuery q1)).error = none
      ∧ (searchStep s (SearchEvent.setQuery q1)).timer = none
      ∧ (searchStep s (SearchEvent.setQuery q1)).inFlight = s.inFlight := by
    cases hc : s.cleanup <;> cases ha : s.abortTok <;>
      simp_all [searchStep, runSearchCleanup, searchEffectBody, hpage, h1, h2]
  have hdefault :
      searchObs (searchStep s (SearchEvent.setQuery q2))
        = searchObs (searchStep s (SearchEvent.setQuery ""))
      ∧ (searchStep s (SearchEvent.setQuery q2)).timer = some ⟨s.nextTok, ""⟩
      ∧ (searchStep s (SearchEvent.setQuery q2)).inFlight = s.inFlight := by
    cases hc : s.cleanup <;> cases ha : s.abortTok <;>
      simp_all [searchStep, runSearchCleanup, searchEffectBody, searchObs, hpage, hq2,
        jsTrim_empty]
  obtain ⟨hobs, htimer, hflight⟩ := hdefault
  refine ⟨hshort.1, hshort.2.1, hshort.2.2.1, hshort.2.2.2.1, hshort.2.2.2.2,
    hobs, htimer, hflight, ?_⟩
  generalize hg : searchStep s (SearchEvent.setQuery q2) = sB at htimer hflight
  simp [searchStep, htimer, hflight]

/-- C4 witness: the too-short query " a " and the whitespace-only query
evaluated at a concrete search state. -/
theorem search_too_short_no_request_and_empty_is_default_witness :
    (searchStep sampleSearchState (SearchEvent.setQuery " a ")).results = []
    ∧ (searchStep sampleSearchState (SearchEvent.setQuery " a ")).loading = false
    ∧ (searchStep sampleSearchState (SearchEvent.setQuery " a ")).error = none
    ∧ (searchStep sampleSearchState (SearchEvent.setQuery " a ")).timer = none
    ∧ (searchStep sampleSearchState (SearchEvent.setQuery " a ")).inFlight
      = sampleSearchState.inFlight
    ∧ searchObs (searchStep sampleSearchState (SearchEvent.setQuery "   "))
      = searchObs (searchStep sampleSearchState (SearchEvent.setQuery ""))
    ∧ (searchStep sampleSearchState (SearchEvent.setQuery "   ")).timer
      = some ⟨sampleSearchState.nextTok, ""⟩
    ∧ (searchStep sampleSearchState (SearchEvent.setQuery "   ")).inFlight
      = sampleSearchState.inFlight
    ∧ (searchStep (searchStep sampleSearchState (SearchEvent.setQuery "   "))
        SearchEvent.timerFire).inFlight
      = ⟨sampleSearchState.nextTok, ""⟩ :: sampleSearchState.inFlight :=
  search_too_short_no_request_and_empty_is_default sampleSearchState " a " "   "
    (by decide) (by decide) (by decide) (by decide)

/-- C5. Changing the active page away from the search view clears the
debounce timer, cancels the in-flight request (its controller token joins
the aborted set), resets the results to empty and the presentation to idle
(not loading, no error, no current controller); and a late settlement of the
canceled request — success or failure — leaves the results empty. -/
theorem leave_search_resets_and_cancels
    (s : SearchState) (p : Page) (hp : ¬ p = Page.search)
    (t : Nat) (d : SearchApiResponse)
    (ht : s.abortTok = some t ∨ s.aborted.contains t = true) :
    (searchStep s (SearchEvent.setPage p)).results = []
    ∧ (searchStep s (SearchEvent.setPage p)).loading = false
    ∧ (searchStep s (SearchEvent.setPage p)).error = none
    ∧ (searchStep s (SearchEvent.setPage p)).timer = none
    ∧ (searchStep s (SearchEvent.setPage p)).abortTok = none
    ∧ (searchStep s (SearchEvent.setPage p)).aborted.contains t = true
    ∧ (searchStep (searchStep s (SearchEvent.setPage p))
        (SearchEvent.respOk t d)).results = []
    ∧ (searchStep (searchStep s (SearchEvent.setPage p))
        (SearchEvent.respErr t)).results = [] := by
  have hbase :
      (searchStep s (SearchEvent.setPage p)).results = []
      ∧ (searchStep s (SearchEvent.setPage p)).loading = false
      ∧ (searchStep s (SearchEvent.setPage p)).error = none
      ∧ (searchStep s (SearchEvent.setPage p)).timer = none
      ∧ (searchStep s (SearchEvent.setPage p)).abortTok = none := by
    cases hc : s.cleanup <;> cases ha : s.abortTok <;>
      simp_all [searchStep, runSearchCleanup, searchEffectBody, hp]
  have habort : (searchStep s (SearchEvent.setPage p)).aborted.contains t = true := by
    rcases ht with ht | ht
    · cases hc : s.cleanup with
      | none =>
        simp_all [searchStep, runSearchCleanup, searchEffectBody, hp, ht]
      | some c =>
        by_cases htc : t = c
        · subst htc
          cases ha2 : (runSearchCleanup { s with page := p }).abortTok <;>
            simp_all [searchStep, runSearchCleanup, searchEffectBody, hp, ht]
        · simp_all [searchStep, runSearchCleanup, searchEffectBody, hp, ht, htc]
    · have ht' : t ∈ s.aborted := by simpa using ht
      cases hc : s.cleanup <;> cases ha : s.abortTok <;>
        (simp_all [searchStep, runSearchCleanup, searchEffectBody, hp];
          try (split <;> simp [ht']))
  obtain ⟨h1, h2, h3, h4, h5⟩ := hbase
  refine ⟨h1, h2, h3, h4, h5, habort, ?_, ?_⟩
  · have hs := searchStep_stale_resp (searchStep s (SearchEvent.setPage p))
      (SearchEvent.respOk t d) (by simpa [isStaleResp] using habort)
    rw [hs.1, h1]
  · have hs := searchStep_stale_resp (searchStep s (SearchEvent.setPage p))
      (SearchEvent.respErr t) (by simpa [isStaleResp] using habort)
    rw [hs.1, h1]

/-- C5 witness: leaving the search page for the home page while token 1 is
in flight, with both kinds of late settlement for it. -/
theorem leave_search_resets_and_cancels_witness :
    (searchStep sampleSearchState (SearchEvent.setPage Page.home)).results = []
    ∧ (searchStep sampleSearchState (SearchEvent.setPage Page.home)).loading = false
    ∧ (searchStep sampleSearchState (SearchEvent.setPage Page.home)).error = none
    ∧ (searchStep sampleSearchState (SearchEvent.setPage Page.home)).timer = none
    ∧ (searchStep sampleSearchState (SearchEvent.setPage Page.home)).abortTok = none
    ∧ (searchStep sampleSearchState (SearchEvent.setPage Page.home)).aborted.contains 1
      = true
    ∧ (searchStep (searchStep sampleSearchState (SearchEvent.setPage Page.home))
        (SearchEvent.respOk 1 sampleSearchResp)).results = []
    ∧ (searchStep (searchStep sampleSearchState (SearchEvent.setPage Page.home))
        (SearchEvent.respErr 1)).results = [] :=
  leave_search_resets_and_cancels sampleSearchState Page.home (by decide) 1
    sampleSearchResp (Or.inl (by decide))

end HayAI
